import Mathlib

/-!
# PlacementPanic — confidence scoring and mock AI endpoints

Shallow embedding of the confidence-score aggregator and the mock backend
routes of the PlacementPanic repository.  JavaScript numbers are modelled as
exact rationals (ℚ); `Math.round` is modelled as `⌊x + 1/2⌋` (round half
toward +∞), matching JavaScript semantics.

Two implementations of `calculateConfidenceScore` exist in the repository:
the one in `AI-COMPLETE-CODE.tsx` (embedded as `calculateConfidenceScore`)
and the one in `AI_FEATURES_IMPLEMENTATION.md` (embedded as
`calculateConfidenceScoreMd`).
-/

namespace PlacementPanic

/-- The seven raw inputs of the confidence calculator
(`AI-COMPLETE-CODE.tsx`, lines 62–70).  The same record shape is reused for
the normalized values, mirroring the `normalized` object of the source. -/
structure ConfidenceInputs where
  voiceVolume : ℚ
  voiceStability : ℚ
  pauseFrequency : ℚ
  facialConfidence : ℚ
  emotionPositivity : ℚ
  answerQuality : ℚ
  answerCompleteness : ℚ
deriving DecidableEq

/-- Result record returned by both versions of `calculateConfidenceScore`:
a rounded integer score, a level label and the normalized breakdown. -/
structure ConfidenceResult where
  score : ℤ
  level : String
  breakdown : ConfidenceInputs
deriving DecidableEq

/-- The fixed weight record (`AI-COMPLETE-CODE.tsx`, lines 71–79; identical
in `AI_FEATURES_IMPLEMENTATION.md`, lines 295–303). -/
def weights : ConfidenceInputs :=
  ⟨0.15, 0.15, 0.1, 0.2, 0.1, 0.15, 0.15⟩

/-- The `normalized` object of `AI-COMPLETE-CODE.tsx`, lines 81–89:
pause frequency is inverted, emotion positivity shifted by `+ 50`, all other
fields pass through. -/
def normalize (inputs : ConfidenceInputs) : ConfidenceInputs :=
  ⟨inputs.voiceVolume,
   inputs.voiceStability,
   100 - inputs.pauseFrequency,
   inputs.facialConfidence,
   inputs.emotionPositivity + 50,
   inputs.answerQuality,
   inputs.answerCompleteness⟩

/-- `Object.entries(normalized)` paired with the corresponding weight, in the
insertion order of the source record. -/
def weightedEntries (n : ConfidenceInputs) : List (ℚ × ℚ) :=
  [(n.voiceVolume, weights.voiceVolume),
   (n.voiceStability, weights.voiceStability),
   (n.pauseFrequency, weights.pauseFrequency),
   (n.facialConfidence, weights.facialConfidence),
   (n.emotionPositivity, weights.emotionPositivity),
   (n.answerQuality, weights.answerQuality),
   (n.answerCompleteness, weights.answerCompleteness)]

/-- The unrounded weighted sum: the `reduce` of `AI-COMPLETE-CODE.tsx`,
lines 91–93, folding `total + value * weight` from `0` over the entries. -/
def rawScore (inputs : ConfidenceInputs) : ℚ :=
  (weightedEntries (normalize inputs)).foldl
    (fun total vw => total + vw.1 * vw.2) 0

/-- JavaScript `Math.round` on exact rationals: round half toward +∞. -/
def jsRound (x : ℚ) : ℤ :=
  ⌊x + 1 / 2⌋

/-- `calculateConfidenceScore` of `AI-COMPLETE-CODE.tsx`, lines 62–97.
The level ladder is the conditional expression of line 95, applied to the
unrounded `score`; the returned `score` field is `Math.round(score)`.
Note the source ladder has no tier between 50 and 35. -/
def calculateConfidenceScore (inputs : ConfidenceInputs) : ConfidenceResult :=
  let score := rawScore inputs
  let level : String :=
    if score ≥ 80 then "Very Confident"
    else if score ≥ 65 then "Confident"
    else if score ≥ 50 then "Moderately Confident"
    else "Needs Improvement"
  ⟨jsRound score, level, normalize inputs⟩

/-- `getConfidenceLevel` of `AI_FEATURES_IMPLEMENTATION.md`, lines 330–336:
the five-tier ladder, including the `≥ 35` tier labelled Less Confident. -/
def getConfidenceLevel (score : ℚ) : String :=
  if score ≥ 80 then "Very Confident"
  else if score ≥ 65 then "Confident"
  else if score ≥ 50 then "Moderately Confident"
  else if score ≥ 35 then "Less Confident"
  else "Needs Improvement"

/-- The `normalizedInputs` object of `AI_FEATURES_IMPLEMENTATION.md`,
lines 305–313: emotion positivity is normalized by `value + 100 / 2`, which
by JavaScript operator precedence is `value + (100 / 2)`. -/
def normalizeMd (inputs : ConfidenceInputs) : ConfidenceInputs :=
  ⟨inputs.voiceVolume,
   inputs.voiceStability,
   100 - inputs.pauseFrequency,
   inputs.facialConfidence,
   inputs.emotionPositivity + 100 / 2,
   inputs.answerQuality,
   inputs.answerCompleteness⟩

/-- The explicit seven-term weighted sum of `AI_FEATURES_IMPLEMENTATION.md`,
lines 315–322. -/
def rawScoreMd (inputs : ConfidenceInputs) : ℚ :=
  (normalizeMd inputs).voiceVolume * weights.voiceVolume +
  (normalizeMd inputs).voiceStability * weights.voiceStability +
  (normalizeMd inputs).pauseFrequency * weights.pauseFrequency +
  (normalizeMd inputs).facialConfidence * weights.facialConfidence +
  (normalizeMd inputs).emotionPositivity * weights.emotionPositivity +
  (normalizeMd inputs).answerQuality * weights.answerQuality +
  (normalizeMd inputs).answerCompleteness * weights.answerCompleteness

/-- `calculateConfidenceScore` of `AI_FEATURES_IMPLEMENTATION.md`,
lines 290–328: level from `getConfidenceLevel` on the unrounded score,
rounded score, breakdown equal to the normalized inputs. -/
def calculateConfidenceScoreMd (inputs : ConfidenceInputs) : ConfidenceResult :=
  ⟨jsRound (rawScoreMd inputs),
   getConfidenceLevel (rawScoreMd inputs),
   normalizeMd inputs⟩

/-- The ladder claimed by the spec, applied to a rounded (integer) score,
with the five tiers named in the claim: ≥80, ≥65, ≥50, ≥35, else.  Stated
from the claim's words, for comparison against the source implementations. -/
def specLevelOfRounded (score : ℤ) : String :=
  if score ≥ 80 then "Very Confident"
  else if score ≥ 65 then "Confident"
  else if score ≥ 50 then "Moderately Confident"
  else if score ≥ 35 then "Less Confident"
  else "Needs Improvement"

/-- The ladder actually applied by `AI-COMPLETE-CODE.tsx`: four tiers with
no tier between 50 and 35, applied to the unrounded weighted sum. -/
def tsxLevelOfRaw (score : ℚ) : String :=
  if score ≥ 80 then "Very Confident"
  else if score ≥ 65 then "Confident"
  else if score ≥ 50 then "Moderately Confident"
  else "Needs Improvement"

/-! ## Mock backend routes (server route additions, `src/unnamed/part_001`) -/

/-- Emotion percentages returned by the facial-analysis mock. -/
structure Emotions where
  happy : ℤ
  neutral : ℤ
  sad : ℤ
  angry : ℤ
  fearful : ℤ
  surprised : ℤ
deriving DecidableEq

/-- Evaluation object returned by the `/api/evaluate-answer` mock. -/
structure AnswerEvaluation where
  correctness : ℤ
  completeness : ℤ
  clarity : ℤ
  keyPoints : List String
  missingPoints : List String
  suggestions : List String
deriving DecidableEq

/-- Response of the `/api/analyze-facial` mock. -/
structure FacialAnalysisResult where
  confidence : ℤ
  emotions : Emotions
  eyeContact : ℤ
  headPosition : String
deriving DecidableEq

/-- Body of the `/api/evaluate-answer` handler (`src/unnamed/part_001`,
Phase 3/Step 4): destructures `question` and `userAnswer` from the request
body and responds with the hardcoded mock evaluation. -/
def evaluateAnswerRoute (_question _userAnswer : String) : AnswerEvaluation :=
  ⟨85, 78, 82, ["Point 1", "Point 2"], ["Missing 1"],
   ["Add more detail", "Be concise"]⟩

/-- Body of the `/api/analyze-facial` handler (`src/unnamed/part_001`,
Phase 3/Step 4): ignores the request body and responds with the hardcoded
mock metrics. -/
def analyzeFacialRoute (_requestBody : String) : FacialAnalysisResult :=
  ⟨85, ⟨45, 30, 10, 5, 5, 5⟩, 80, "center"⟩

/-! ## Helper lemmas -/

/-- The folded weighted sum, written as an explicit linear expression in the
raw inputs. -/
lemma rawScore_eq (i : ConfidenceInputs) :
    rawScore i =
      i.voiceVolume * 0.15 + i.voiceStability * 0.15 +
      (100 - i.pauseFrequency) * 0.1 + i.facialConfidence * 0.2 +
      (i.emotionPositivity + 50) * 0.1 + i.answerQuality * 0.15 +
      i.answerCompleteness * 0.15 := by
  simp only [rawScore, weightedEntries, normalize, weights, List.foldl]
  ring

/-- Component view of the tsx implementation. -/
lemma calc_score_eq (i : ConfidenceInputs) :
    (calculateConfidenceScore i).score = jsRound (rawScore i) := rfl

/-- The level component of the tsx implementation is the four-tier ladder
applied to the unrounded weighted sum. -/
lemma calc_level_eq (i : ConfidenceInputs) :
    (calculateConfidenceScore i).level = tsxLevelOfRaw (rawScore i) := rfl

/-- The breakdown component of the tsx implementation. -/
lemma calc_breakdown_eq (i : ConfidenceInputs) :
    (calculateConfidenceScore i).breakdown = normalize i := rfl

/-- Rounding half toward +∞ is monotone. -/
lemma jsRound_mono {x y : ℚ} (h : x ≤ y) : jsRound x ≤ jsRound y := by
  unfold jsRound
  exact Int.floor_le_floor (by linarith)

/-! ## Claims -/

/-- Claim C1, counterexample.  The spec's five-tier ladder on the rounded
score disagrees with the tsx implementation in two ways.  First, an input
whose weighted sum is exactly 49 (so the rounded score is 49) is labelled
Needs Improvement by the code, while the claimed ladder labels a rounded 49
as Less Confident: the tsx ladder has no tier between 50 and 35.  Second,
an input whose weighted sum is 79.5 rounds to a score of 80, which the
claimed ladder labels Very Confident, yet the code labels it Confident
because the ladder is applied to the unrounded sum. -/
theorem confidenceLevel_spec_ladder_counterexample :
    ((calculateConfidenceScore ⟨49, 49, 51, 49, -1, 49, 49⟩).score = 49 ∧
     (calculateConfidenceScore ⟨49, 49, 51, 49, -1, 49, 49⟩).level =
       "Needs Improvement" ∧
     specLevelOfRounded 49 = "Less Confident") ∧
    ((calculateConfidenceScore
        ⟨79.5, 79.5, 20.5, 79.5, 29.5, 79.5, 79.5⟩).score = 80 ∧
     (calculateConfidenceScore
        ⟨79.5, 79.5, 20.5, 79.5, 29.5, 79.5, 79.5⟩).level = "Confident" ∧
     specLevelOfRounded 80 = "Very Confident") := by
  have h49 : rawScore ⟨49, 49, 51, 49, -1, 49, 49⟩ = 49 := by
    rw [rawScore_eq]; norm_num
  have h795 : rawScore ⟨79.5, 79.5, 20.5, 79.5, 29.5, 79.5, 79.5⟩ = 79.5 := by
    rw [rawScore_eq]; norm_num
  refine ⟨⟨?_, ?_, ?_⟩, ?_, ?_, ?_⟩
  · rw [calc_score_eq, h49, jsRound]; norm_num
  · rw [calc_level_eq, h49]; norm_num [tsxLevelOfRaw]
  · norm_num [specLevelOfRounded]
  · rw [calc_score_eq, h795, jsRound]; norm_num
  · rw [calc_level_eq, h795]; norm_num [tsxLevelOfRaw]
  · norm_num [specLevelOfRounded]

/-- Claim C1, amended.  For every input, the level returned by
`calculateConfidenceScore` (AI-COMPLETE-CODE.tsx) is the label obtained by
applying the fixed thresholds to the unrounded weighted sum, with the
four-tier ladder ≥80 Very Confident, ≥65 Confident, ≥50 Moderately
Confident, and below 50 Needs Improvement — there is no Less Confident
tier.  At the boundary values: 80 gives Very Confident, 79 and 65 give
Confident, 64 and 50 give Moderately Confident, and 49, 35 and 34 all give
Needs Improvement. -/
theorem confidenceLevel_unrounded_ladder :
    (∀ i : ConfidenceInputs,
      (calculateConfidenceScore i).level = tsxLevelOfRaw (rawScore i)) ∧
    tsxLevelOfRaw 80 = "Very Confident" ∧
    tsxLevelOfRaw 79 = "Confident" ∧
    tsxLevelOfRaw 65 = "Confident" ∧
    tsxLevelOfRaw 64 = "Moderately Confident" ∧
    tsxLevelOfRaw 50 = "Moderately Confident" ∧
    tsxLevelOfRaw 49 = "Needs Improvement" ∧
    tsxLevelOfRaw 35 = "Needs Improvement" ∧
    tsxLevelOfRaw 34 = "Needs Improvement" := by
  refine ⟨fun i => rfl, ?_, ?_, ?_, ?_, ?_, ?_, ?_, ?_⟩ <;>
    norm_num [tsxLevelOfRaw]

/-- Claim C3.  On the worked example of the spec, the tsx implementation
returns score 81 and level Very Confident, the breakdown holds the
normalized pause frequency 80 and emotion positivity 90, and the unrounded
weighted sum is exactly 81.25. -/
theorem workedExample_eval :
    calculateConfidenceScore ⟨75, 80, 20, 85, 40, 78, 82⟩ =
      ⟨81, "Very Confident", ⟨75, 80, 80, 85, 90, 78, 82⟩⟩ ∧
    rawScore ⟨75, 80, 20, 85, 40, 78, 82⟩ = 81.25 := by
  have h : rawScore ⟨75, 80, 20, 85, 40, 78, 82⟩ = 81.25 := by
    rw [rawScore_eq]; norm_num
  refine ⟨?_, h⟩
  have hs : (calculateConfidenceScore ⟨75, 80, 20, 85, 40, 78, 82⟩).score = 81 := by
    rw [calc_score_eq, h, jsRound]; norm_num
  have hl : (calculateConfidenceScore ⟨75, 80, 20, 85, 40, 78, 82⟩).level =
      "Very Confident" := by
    rw [calc_level_eq, h]; norm_num [tsxLevelOfRaw]
  have hb : (calculateConfidenceScore ⟨75, 80, 20, 85, 40, 78, 82⟩).breakdown =
      ⟨75, 80, 80, 85, 90, 78, 82⟩ := by
    rw [calc_breakdown_eq]
    norm_num [normalize, ConfidenceInputs.mk.injEq]
  calc calculateConfidenceScore ⟨75, 80, 20, 85, 40, 78, 82⟩
      = ⟨(calculateConfidenceScore ⟨75, 80, 20, 85, 40, 78, 82⟩).score,
         (calculateConfidenceScore ⟨75, 80, 20, 85, 40, 78, 82⟩).level,
         (calculateConfidenceScore ⟨75, 80, 20, 85, 40, 78, 82⟩).breakdown⟩ := rfl
    _ = ⟨81, "Very Confident", ⟨75, 80, 80, 85, 90, 78, 82⟩⟩ := by
        rw [hs, hl, hb]

/-- Claim C4.  For every input, the normalization is exactly: pause
frequency becomes 100 minus the input, emotion positivity becomes the input
plus 50, and the other five fields pass through; the breakdown field of the
result is exactly this normalized record. -/
theorem breakdown_is_normalized :
    ∀ i : ConfidenceInputs,
      (calculateConfidenceScore i).breakdown =
        ⟨i.voiceVolume, i.voiceStability, 100 - i.pauseFrequency,
         i.facialConfidence, i.emotionPositivity + 50, i.answerQuality,
         i.answerCompleteness⟩ :=
  fun _ => rfl

/-- Claim C2, counterexample.  With every input inside its documented
range, the returned score can leave [0,100]: all-zero inputs with pause
frequency 100 and emotion positivity -100 give score -5, and all-100
inputs with pause frequency 0 and emotion positivity 100 give score 105.
The `+ 50` shift maps the documented emotion range [-100,100] onto
[-50,150], not onto [0,100]. -/
theorem scoreRange_counterexample :
    ((calculateConfidenceScore ⟨0, 0, 100, 0, -100, 0, 0⟩).score = -5 ∧
     ¬ (0 ≤ (calculateConfidenceScore ⟨0, 0, 100, 0, -100, 0, 0⟩).score)) ∧
    ((calculateConfidenceScore ⟨100, 100, 0, 100, 100, 100, 100⟩).score = 105 ∧
     ¬ ((calculateConfidenceScore ⟨100, 100, 0, 100, 100, 100, 100⟩).score ≤ 100)) := by
  have hlo : rawScore ⟨0, 0, 100, 0, -100, 0, 0⟩ = -5 := by
    rw [rawScore_eq]; norm_num
  have hhi : rawScore ⟨100, 100, 0, 100, 100, 100, 100⟩ = 105 := by
    rw [rawScore_eq]; norm_num
  constructor
  · rw [calc_score_eq, hlo, jsRound]; norm_num
  · rw [calc_score_eq, hhi, jsRound]; norm_num

/-- Claim C2, amended.  For every input with voiceVolume, voiceStability,
pauseFrequency, facialConfidence, answerQuality and answerCompleteness each
in [0,100] and emotionPositivity in [-100,100], the score returned by
`calculateConfidenceScore` is an integer in [-5,105] (and the bounds -5 and
105 are attained, per the counterexample). -/
theorem scoreRange_bounds (i : ConfidenceInputs)
    (hvv : 0 ≤ i.voiceVolume ∧ i.voiceVolume ≤ 100)
    (hvs : 0 ≤ i.voiceStability ∧ i.voiceStability ≤ 100)
    (hpf : 0 ≤ i.pauseFrequency ∧ i.pauseFrequency ≤ 100)
    (hfc : 0 ≤ i.facialConfidence ∧ i.facialConfidence ≤ 100)
    (hep : -100 ≤ i.emotionPositivity ∧ i.emotionPositivity ≤ 100)
    (haq : 0 ≤ i.answerQuality ∧ i.answerQuality ≤ 100)
    (hac : 0 ≤ i.answerCompleteness ∧ i.answerCompleteness ≤ 100) :
    -5 ≤ (calculateConfidenceScore i).score ∧
      (calculateConfidenceScore i).score ≤ 105 := by
  obtain ⟨hvv1, hvv2⟩ := hvv
  obtain ⟨hvs1, hvs2⟩ := hvs
  obtain ⟨hpf1, hpf2⟩ := hpf
  obtain ⟨hfc1, hfc2⟩ := hfc
  obtain ⟨hep1, hep2⟩ := hep
  obtain ⟨haq1, haq2⟩ := haq
  obtain ⟨hac1, hac2⟩ := hac
  have hlo : (-5 : ℚ) ≤ rawScore i := by
    rw [rawScore_eq]; linarith
  have hhi : rawScore i ≤ 105 := by
    rw [rawScore_eq]; linarith
  rw [calc_score_eq]
  constructor
  · have h1 : jsRound (-5 : ℚ) ≤ jsRound (rawScore i) := jsRound_mono hlo
    have h2 : jsRound (-5 : ℚ) = -5 := by rw [jsRound]; norm_num
    omega
  · have h1 : jsRound (rawScore i) ≤ jsRound (105 : ℚ) := jsRound_mono hhi
    have h2 : jsRound (105 : ℚ) = 105 := by rw [jsRound]; norm_num
    omega

/-- Claim C2, witness for the amended bounds at the spec's worked-example
input. -/
theorem scoreRange_bounds_witness :
    (((0 : ℚ) ≤ 75 ∧ (75 : ℚ) ≤ 100) ∧ ((0 : ℚ) ≤ 80 ∧ (80 : ℚ) ≤ 100) ∧
     ((0 : ℚ) ≤ 20 ∧ (20 : ℚ) ≤ 100) ∧ ((0 : ℚ) ≤ 85 ∧ (85 : ℚ) ≤ 100) ∧
     ((-100 : ℚ) ≤ 40 ∧ (40 : ℚ) ≤ 100) ∧ ((0 : ℚ) ≤ 78 ∧ (78 : ℚ) ≤ 100) ∧
     ((0 : ℚ) ≤ 82 ∧ (82 : ℚ) ≤ 100)) ∧
    (-5 ≤ (calculateConfidenceScore ⟨75, 80, 20, 85, 40, 78, 82⟩).score ∧
     (calculateConfidenceScore ⟨75, 80, 20, 85, 40, 78, 82⟩).score ≤ 105) :=
  ⟨⟨⟨by norm_num, by norm_num⟩, ⟨by norm_num, by norm_num⟩,
    ⟨by norm_num, by norm_num⟩, ⟨by norm_num, by norm_num⟩,
    ⟨by norm_num, by norm_num⟩, ⟨by norm_num, by norm_num⟩,
    ⟨by norm_num, by norm_num⟩⟩,
   scoreRange_bounds ⟨75, 80, 20, 85, 40, 78, 82⟩
     ⟨by norm_num, by norm_num⟩ ⟨by norm_num, by norm_num⟩
     ⟨by norm_num, by norm_num⟩ ⟨by norm_num, by norm_num⟩
     ⟨by norm_num, by norm_num⟩ ⟨by norm_num, by norm_num⟩
     ⟨by norm_num, by norm_num⟩⟩

/-- Claim C5.  For every input, the returned score is the weighted sum of
the normalized values under the fixed weights 0.15, 0.15, 0.10, 0.20, 0.10,
0.15, 0.15, rounded to the nearest integer (half toward +∞); and the seven
weights of the source's weight record sum exactly to 1. -/
theorem score_is_rounded_weighted_sum :
    (∀ i : ConfidenceInputs,
      (calculateConfidenceScore i).score =
        jsRound ((normalize i).voiceVolume * 0.15 +
          (normalize i).voiceStability * 0.15 +
          (normalize i).pauseFrequency * 0.1 +
          (normalize i).facialConfidence * 0.2 +
          (normalize i).emotionPositivity * 0.1 +
          (normalize i).answerQuality * 0.15 +
          (normalize i).answerCompleteness * 0.15)) ∧
    weights.voiceVolume + weights.voiceStability + weights.pauseFrequency +
      weights.facialConfidence + weights.emotionPositivity +
      weights.answerQuality + weights.answerCompleteness = 1 := by
  constructor
  · intro i
    rw [calc_score_eq]
    congr 1
    rw [rawScore_eq]
    simp only [normalize]
  · show (0.15 : ℚ) + 0.15 + 0.1 + 0.2 + 0.1 + 0.15 + 0.15 = 1
    norm_num

/-- Claim C6.  The embedded `calculateConfidenceScore` is a total function:
for every rational input record, in range or not, the result is produced by
the same normalization and weighted-sum arithmetic, with no rejection and
no clamping of any field.  The second conjunct exercises a wildly
out-of-range input: every value propagates arithmetically (for instance a
voiceVolume of 1000 passes through to the breakdown unchanged and the score
becomes 380). -/
theorem total_no_clamping :
    (∀ i : ConfidenceInputs,
      calculateConfidenceScore i =
        ⟨jsRound (i.voiceVolume * 0.15 + i.voiceStability * 0.15 +
            (100 - i.pauseFrequency) * 0.1 + i.facialConfidence * 0.2 +
            (i.emotionPositivity + 50) * 0.1 + i.answerQuality * 0.15 +
            i.answerCompleteness * 0.15),
          tsxLevelOfRaw (i.voiceVolume * 0.15 + i.voiceStability * 0.15 +
            (100 - i.pauseFrequency) * 0.1 + i.facialConfidence * 0.2 +
            (i.emotionPositivity + 50) * 0.1 + i.answerQuality * 0.15 +
            i.answerCompleteness * 0.15),
          ⟨i.voiceVolume, i.voiceStability, 100 - i.pauseFrequency,
           i.facialConfidence, i.emotionPositivity + 50, i.answerQuality,
           i.answerCompleteness⟩⟩) ∧
    calculateConfidenceScore ⟨1000, -500, 250, 1000, 999, -1, 101⟩ =
      ⟨380, "Very Confident", ⟨1000, -500, -150, 1000, 1049, -1, 101⟩⟩ := by
  have hgen : ∀ i : ConfidenceInputs,
      calculateConfidenceScore i =
        ⟨jsRound (i.voiceVolume * 0.15 + i.voiceStability * 0.15 +
            (100 - i.pauseFrequency) * 0.1 + i.facialConfidence * 0.2 +
            (i.emotionPositivity + 50) * 0.1 + i.answerQuality * 0.15 +
            i.answerCompleteness * 0.15),
          tsxLevelOfRaw (i.voiceVolume * 0.15 + i.voiceStability * 0.15 +
            (100 - i.pauseFrequency) * 0.1 + i.facialConfidence * 0.2 +
            (i.emotionPositivity + 50) * 0.1 + i.answerQuality * 0.15 +
            i.answerCompleteness * 0.15),
          ⟨i.voiceVolume, i.voiceStability, 100 - i.pauseFrequency,
           i.facialConfidence, i.emotionPositivity + 50, i.answerQuality,
           i.answerCompleteness⟩⟩ := by
    intro i
    calc calculateConfidenceScore i
        = ⟨jsRound (rawScore i), tsxLevelOfRaw (rawScore i), normalize i⟩ := rfl
      _ = _ := by rw [rawScore_eq]; rfl
  refine ⟨hgen, ?_⟩
  have hraw : rawScore ⟨1000, -500, 250, 1000, 999, -1, 101⟩ = 3799 / 10 := by
    rw [rawScore_eq]; norm_num
  have hs : jsRound ((3799 : ℚ) / 10) = 380 := by rw [jsRound]; norm_num
  have hl : tsxLevelOfRaw ((3799 : ℚ) / 10) = "Very Confident" := by
    norm_num [tsxLevelOfRaw]
  calc calculateConfidenceScore ⟨1000, -500, 250, 1000, 999, -1, 101⟩
      = ⟨jsRound (rawScore ⟨1000, -500, 250, 1000, 999, -1, 101⟩),
         tsxLevelOfRaw (rawScore ⟨1000, -500, 250, 1000, 999, -1, 101⟩),
         normalize ⟨1000, -500, 250, 1000, 999, -1, 101⟩⟩ := rfl
    _ = ⟨380, "Very Confident", ⟨1000, -500, -150, 1000, 1049, -1, 101⟩⟩ := by
        rw [hraw, hs, hl]
        simp only [ConfidenceResult.mk.injEq, normalize, ConfidenceInputs.mk.injEq]
        norm_num

/-- Claim C7.  `calculateConfidenceScore` is a deterministic pure function
of its inputs alone: the embedding takes no state besides the input record,
and two invocations on equal inputs return equal score, level and
breakdown. -/
theorem deterministic_pure (i j : ConfidenceInputs) (h : i = j) :
    (calculateConfidenceScore i).score = (calculateConfidenceScore j).score ∧
    (calculateConfidenceScore i).level = (calculateConfidenceScore j).level ∧
    (calculateConfidenceScore i).breakdown =
      (calculateConfidenceScore j).breakdown := by
  subst h
  exact ⟨rfl, rfl, rfl⟩

/-- Claim C7, witness at a concrete input. -/
theorem deterministic_pure_witness :
    (⟨75, 80, 20, 85, 40, 78, 82⟩ : ConfidenceInputs) =
      ⟨75, 80, 20, 85, 40, 78, 82⟩ ∧
    ((calculateConfidenceScore ⟨75, 80, 20, 85, 40, 78, 82⟩).score =
        (calculateConfidenceScore ⟨75, 80, 20, 85, 40, 78, 82⟩).score ∧
     (calculateConfidenceScore ⟨75, 80, 20, 85, 40, 78, 82⟩).level =
        (calculateConfidenceScore ⟨75, 80, 20, 85, 40, 78, 82⟩).level ∧
     (calculateConfidenceScore ⟨75, 80, 20, 85, 40, 78, 82⟩).breakdown =
        (calculateConfidenceScore ⟨75, 80, 20, 85, 40, 78, 82⟩).breakdown) :=
  ⟨rfl, deterministic_pure ⟨75, 80, 20, 85, 40, 78, 82⟩
    ⟨75, 80, 20, 85, 40, 78, 82⟩ rfl⟩

/-- Claim C8.  Regardless of the request body, the answer-evaluation route
responds with the fixed mock evaluation (correctness 85, completeness 78,
clarity 82, with fixed key points, missing points and suggestions) and the
facial-analysis route responds with the fixed mock metrics (confidence 85,
emotions happy 45 / neutral 30 / sad 10 / angry 5 / fearful 5 /
surprised 5, eye contact 80, head position center).  The embedded handlers
model the route bodies, which run after the authentication middleware has
accepted the request. -/
theorem mock_endpoints_fixed :
    (∀ question userAnswer : String,
      evaluateAnswerRoute question userAnswer =
        ⟨85, 78, 82, ["Point 1", "Point 2"], ["Missing 1"],
         ["Add more detail", "Be concise"]⟩) ∧
    (∀ requestBody : String,
      analyzeFacialRoute requestBody =
        ⟨85, ⟨45, 30, 10, 5, 5, 5⟩, 80, "center"⟩) :=
  ⟨fun _ _ => rfl, fun _ => rfl⟩

/-- Claim C9.  The two implementations of the confidence calculator — the
one in AI-COMPLETE-CODE.tsx and the one in AI_FEATURES_IMPLEMENTATION.md —
return equal score fields and equal breakdown fields on every input: the
emotion normalizations `value + 50` and `value + 100 / 2` coincide, the
weights agree, and both round the same weighted sum. -/
theorem implementations_agree_on_score_and_breakdown :
    ∀ i : ConfidenceInputs,
      (calculateConfidenceScore i).score =
        (calculateConfidenceScoreMd i).score ∧
      (calculateConfidenceScore i).breakdown =
        (calculateConfidenceScoreMd i).breakdown := by
  intro i
  have hnorm : normalize i = normalizeMd i := by
    simp only [normalize, normalizeMd, ConfidenceInputs.mk.injEq]
    norm_num
  have hraw : rawScore i = rawScoreMd i := by
    rw [rawScore_eq]
    simp only [rawScoreMd, normalizeMd, weights]
    ring
  constructor
  · show jsRound (rawScore i) = jsRound (rawScoreMd i)
    rw [hraw]
  · show normalize i = normalizeMd i
    exact hnorm

/-- Claim C10.  Holding the other six inputs fixed, the unrounded weighted
sum is monotonically nondecreasing in each of voiceVolume, voiceStability,
facialConfidence, emotionPositivity, answerQuality and answerCompleteness,
and monotonically nonincreasing in pauseFrequency; the returned rounded
score inherits each (weak) monotonicity. -/
theorem weightedSum_monotonicity :
    (∀ (i : ConfidenceInputs) (x y : ℚ), x ≤ y →
      rawScore { i with voiceVolume := x } ≤
          rawScore { i with voiceVolume := y } ∧
        (calculateConfidenceScore { i with voiceVolume := x }).score ≤
          (calculateConfidenceScore { i with voiceVolume := y }).score) ∧
    (∀ (i : ConfidenceInputs) (x y : ℚ), x ≤ y →
      rawScore { i with voiceStability := x } ≤
          rawScore { i with voiceStability := y } ∧
        (calculateConfidenceScore { i with voiceStability := x }).score ≤
          (calculateConfidenceScore { i with voiceStability := y }).score) ∧
    (∀ (i : ConfidenceInputs) (x y : ℚ), x ≤ y →
      rawScore { i with facialConfidence := x } ≤
          rawScore { i with facialConfidence := y } ∧
        (calculateConfidenceScore { i with facialConfidence := x }).score ≤
          (calculateConfidenceScore { i with facialConfidence := y }).score) ∧
    (∀ (i : ConfidenceInputs) (x y : ℚ), x ≤ y →
      rawScore { i with emotionPositivity := x } ≤
          rawScore { i with emotionPositivity := y } ∧
        (calculateConfidenceScore { i with emotionPositivity := x }).score ≤
          (calculateConfidenceScore { i with emotionPositivity := y }).score) ∧
    (∀ (i : ConfidenceInputs) (x y : ℚ), x ≤ y →
      rawScore { i with answerQuality := x } ≤
          rawScore { i with answerQuality := y } ∧
        (calculateConfidenceScore { i with answerQuality := x }).score ≤
          (calculateConfidenceScore { i with answerQuality := y }).score) ∧
    (∀ (i : ConfidenceInputs) (x y : ℚ), x ≤ y →
      rawScore { i with answerCompleteness := x } ≤
          rawScore { i with answerCompleteness := y } ∧
        (calculateConfidenceScore { i with answerCompleteness := x }).score ≤
          (calculateConfidenceScore { i with answerCompleteness := y }).score) ∧
    (∀ (i : ConfidenceInputs) (x y : ℚ), x ≤ y →
      rawScore { i with pauseFrequency := y } ≤
          rawScore { i with pauseFrequency := x } ∧
        (calculateConfidenceScore { i with pauseFrequency := y }).score ≤
          (calculateConfidenceScore { i with pauseFrequency := x }).score) := by
  refine ⟨?_, ?_, ?_, ?_, ?_, ?_, ?_⟩ <;>
  · intro i x y h
    constructor
    · rw [rawScore_eq, rawScore_eq]
      dsimp only
      linarith
    · rw [calc_score_eq, calc_score_eq]
      apply jsRound_mono
      rw [rawScore_eq, rawScore_eq]
      dsimp only
      linarith

/-- Claim C10, witness: each monotonicity conjunct applied at a concrete
input pair. -/
theorem weightedSum_monotonicity_witness :
    (0 : ℚ) ≤ 1 ∧
    (rawScore ⟨0, 2, 3, 4, 5, 6, 7⟩ ≤ rawScore ⟨1, 2, 3, 4, 5, 6, 7⟩ ∧
      (calculateConfidenceScore ⟨0, 2, 3, 4, 5, 6, 7⟩).score ≤
        (calculateConfidenceScore ⟨1, 2, 3, 4, 5, 6, 7⟩).score) ∧
    (rawScore ⟨1, 0, 3, 4, 5, 6, 7⟩ ≤ rawScore ⟨1, 1, 3, 4, 5, 6, 7⟩ ∧
      (calculateConfidenceScore ⟨1, 0, 3, 4, 5, 6, 7⟩).score ≤
        (calculateConfidenceScore ⟨1, 1, 3, 4, 5, 6, 7⟩).score) ∧
    (rawScore ⟨1, 2, 3, 0, 5, 6, 7⟩ ≤ rawScore ⟨1, 2, 3, 1, 5, 6, 7⟩ ∧
      (calculateConfidenceScore ⟨1, 2, 3, 0, 5, 6, 7⟩).score ≤
        (calculateConfidenceScore ⟨1, 2, 3, 1, 5, 6, 7⟩).score) ∧
    (rawScore ⟨1, 2, 3, 4, 0, 6, 7⟩ ≤ rawScore ⟨1, 2, 3, 4, 1, 6, 7⟩ ∧
      (calculateConfidenceScore ⟨1, 2, 3, 4, 0, 6, 7⟩).score ≤
        (calculateConfidenceScore ⟨1, 2, 3, 4, 1, 6, 7⟩).score) ∧
    (rawScore ⟨1, 2, 3, 4, 5, 0, 7⟩ ≤ rawScore ⟨1, 2, 3, 4, 5, 1, 7⟩ ∧
      (calculateConfidenceScore ⟨1, 2, 3, 4, 5, 0, 7⟩).score ≤
        (calculateConfidenceScore ⟨1, 2, 3, 4, 5, 1, 7⟩).score) ∧
    (rawScore ⟨1, 2, 3, 4, 5, 6, 0⟩ ≤ rawScore ⟨1, 2, 3, 4, 5, 6, 1⟩ ∧
      (calculateConfidenceScore ⟨1, 2, 3, 4, 5, 6, 0⟩).score ≤
        (calculateConfidenceScore ⟨1, 2, 3, 4, 5, 6, 1⟩).score) ∧
    (rawScore ⟨1, 2, 1, 4, 5, 6, 7⟩ ≤ rawScore ⟨1, 2, 0, 4, 5, 6, 7⟩ ∧
      (calculateConfidenceScore ⟨1, 2, 1, 4, 5, 6, 7⟩).score ≤
        (calculateConfidenceScore ⟨1, 2, 0, 4, 5, 6, 7⟩).score) :=
  ⟨by norm_num,
   weightedSum_monotonicity.1 ⟨1, 2, 3, 4, 5, 6, 7⟩ 0 1 (by norm_num),
   weightedSum_monotonicity.2.1 ⟨1, 2, 3, 4, 5, 6, 7⟩ 0 1 (by norm_num),
   weightedSum_monotonicity.2.2.1 ⟨1, 2, 3, 4, 5, 6, 7⟩ 0 1 (by norm_num),
   weightedSum_monotonicity.2.2.2.1 ⟨1, 2, 3, 4, 5, 6, 7⟩ 0 1 (by norm_num),
   weightedSum_monotonicity.2.2.2.2.1 ⟨1, 2, 3, 4, 5, 6, 7⟩ 0 1 (by norm_num),
   weightedSum_monotonicity.2.2.2.2.2.1 ⟨1, 2, 3, 4, 5, 6, 7⟩ 0 1 (by norm_num),
   weightedSum_monotonicity.2.2.2.2.2.2 ⟨1, 2, 3, 4, 5, 6, 7⟩ 0 1 (by norm_num)⟩

end PlacementPanic
